import Mathlib

/-!
Shallow embedding of the avatar chat service in
samples/python/web/avatar/app.py, together with theorems checking the
natural-language specification against it.

Conventions of the embedding:
  - Python `str` is Lean `String`; a value that may be Python `None` is
    `Option String` (`none` = `None`).
  - Python truthiness of such a value (`if x:`) is `pyTruthy`.
  - The module-level globals of app.py are gathered in one record
    `AppState`; every function that mutates globals takes and returns an
    `AppState`.
  - Threads (the speech-queue drain workers spawned by `speakWithQueue`)
    are modelled by a small-step transition system: an `Act` is one
    atomic step of some thread, and a schedule is a `List Act`.
-/

namespace Avatar

/-- Python truthiness for an optional string: `None` and the empty string
are falsy, every other string is truthy. -/
def pyTruthy : Option String → Bool
  | none => false
  | some s => !s.isEmpty

/-- Python f-string rendering of an optional string: `None` prints as
the four characters `None`. -/
def pyShowOpt : Option String → String
  | none => "None"
  | some s => s

/-- Python `str.strip()` (both ends, whitespace). -/
def pyStrip (s : String) : String :=
  String.mk (((s.toList.dropWhile Char.isWhitespace).reverse.dropWhile Char.isWhitespace).reverse)

/-- Python `str.replace(chr(10), rep)` with an empty replacement: every
newline character is removed. -/
def pyRemoveNewlines (s : String) : String :=
  String.mk (s.toList.filter (fun c => c != '\n'))

/-- Does the character list `s` start with the pattern `p`? -/
def listStartsWith : List Char → List Char → Bool
  | [], _ => true
  | _ :: _, [] => false
  | p :: ps, c :: cs => p == c && listStartsWith ps cs

/-- Python `s.startswith(p)`. -/
def pyStartsWith (s p : String) : Bool :=
  listStartsWith p.toList s.toList

/-- Does the character list `s` contain `pat` as a contiguous substring? -/
def containsSub (s pat : List Char) : Bool :=
  match s with
  | [] => listStartsWith pat []
  | _ :: rest => listStartsWith pat s || containsSub rest pat

/-- Does the string `s` contain `pat` as a contiguous substring? -/
def hasSubstr (s pat : String) : Bool :=
  containsSub s.toList pat.toList

/-- One character of Python `html.escape(s, quote=True)`: the five
markup-significant characters are replaced by entities. -/
def escapeChar (c : Char) : List Char :=
  if c = '&' then ("&amp;").toList
  else if c = '<' then ("&lt;").toList
  else if c = '>' then ("&gt;").toList
  else if c = '"' then ("&quot;").toList
  else if c = '\'' then ("&#x27;").toList
  else [c]

/-- Python `html.escape(s, quote=True)` as used in `speakText`. -/
def htmlEscape (s : String) : String :=
  String.mk (s.toList.flatMap escapeChar)

/-- One chat message: `{role: ..., content: ...}` of the `messages`
global. -/
structure Message where
  role : String
  content : String
deriving DecidableEq

/-- The `fieldsMapping` sub-dictionary of the data-source config built in
`initializeChatContext`. -/
structure FieldsMapping where
  contentFieldsSeparator : String
  contentFields : List String
  filepathField : Option String
  titleField : Option String
  urlField : Option String
deriving DecidableEq

/-- One element of the `data_sources` global: the `AzureCognitiveSearch`
descriptor built in `initializeChatContext` (the `type` key and the
`parameters` sub-dictionary are flattened into one record). -/
structure DataSource where
  sourceType : String
  endpoint : Option String
  key : Option String
  indexName : Option String
  semanticConfiguration : String
  queryType : String
  fieldsMapping : FieldsMapping
  inScope : Bool
  roleInformation : String
deriving DecidableEq

/-- Phase of one drain-worker thread spawned by `speakWithQueue`:
`spawned` = thread object created, body not yet scheduled; `looping` =
inside the `while` loop between synthesis calls; `inCall t` = blocked in
`speakText t ...`. A finished thread is removed from the list. -/
inductive WorkerPhase where
  | spawned
  | looping
  | inCall (text : String)
deriving DecidableEq

/-- One drain-worker thread. `ending_silence_ms` is the value of the
`nonlocal ending_silence_ms` captured from the `speakWithQueue` call
that spawned the thread. -/
structure Worker where
  phase : WorkerPhase
  ending_silence_ms : Nat
deriving DecidableEq

/-- An externally observable synthesis event: `synthBegin` records the
arguments of a `speakText` call issued by a worker, `synthEnd` its
completion. -/
inductive SpeechEvent where
  | synthBegin (text voice : String) (speaker_profile_id : Option String) (ending_silence_ms : Nat)
  | synthEnd (text : String)
deriving DecidableEq

/-- The module-level mutable globals of app.py, plus the live worker
threads and the trace of synthesis events (the observable history).
`last_speak_time` is a logical clock value (`datetime.now()` is modelled
by the length of the event trace at the time of the update). -/
structure AppState where
  tts_voice : String
  custom_voice_endpoint_id : Option String
  personal_voice_speaker_profile_id : Option String
  azure_openai_deployment_name : Option String
  cognitive_search_index_name : Option String
  speech_synthesizer : Option Nat
  speech_token : Option String
  ice_token : Option String
  chat_initiated : Bool
  messages : List Message
  data_sources : List DataSource
  is_speaking : Bool
  spoken_text_queue : List String
  last_speak_time : Option Nat
  workers : List Worker
  trace : List SpeechEvent
deriving DecidableEq

/-- The values the globals hold right after module import. -/
def initialState : AppState :=
  { tts_voice := "en-US-JennyMultilingualV2Neural"
    custom_voice_endpoint_id := none
    personal_voice_speaker_profile_id := none
    azure_openai_deployment_name := none
    cognitive_search_index_name := none
    speech_synthesizer := none
    speech_token := none
    ice_token := none
    chat_initiated := false
    messages := []
    data_sources := []
    is_speaking := false
    spoken_text_queue := []
    last_speak_time := none
    workers := []
    trace := [] }

/-- `initializeChatContext(system_prompt)`: rebuilds `data_sources` (one
`AzureCognitiveSearch` entry when endpoint, key and index name are all
truthy) and `messages` (a single system message only when no data source
is present). `cse`/`csk` are the env-derived module constants
`cognitive_search_endpoint` / `cognitive_search_api_key`; the index name
is the mutable global carried in the state. -/
def initializeChatContext (cse csk : Option String) (system_prompt : String) (s : AppState) : AppState :=
  let data_sources : List DataSource :=
    if pyTruthy cse && pyTruthy csk && pyTruthy s.cognitive_search_index_name then
      [{ sourceType := "AzureCognitiveSearch"
         endpoint := cse
         key := csk
         indexName := s.cognitive_search_index_name
         semanticConfiguration := ""
         queryType := "simple"
         fieldsMapping :=
           { contentFieldsSeparator := "\n"
             contentFields := ["content"]
             filepathField := none
             titleField := some "title"
             urlField := none }
         inScope := true
         roleInformation := system_prompt }]
    else []
  let messages : List Message :=
    if data_sources.length = 0 then [{ role := "system", content := system_prompt }] else []
  { s with data_sources := data_sources, messages := messages }

/-- The `/api/chat/clearHistory` route: calls `initializeChatContext`
and sets `chat_initiated`. -/
def clearChatHistory (cse csk : Option String) (system_prompt : String) (s : AppState) : AppState :=
  let s2 := initializeChatContext cse csk system_prompt s
  { s2 with chat_initiated := true }

/-- The request headers consulted by the override block at the top of
`connectAvatar` (`request.headers.get` returns `none` for an absent
header). -/
structure ConnectHeaders where
  aoaiDeploymentName : Option String
  cognitiveSearchIndexName : Option String
  ttsVoice : Option String
  customVoiceEndpointId : Option String
  personalVoiceSpeakerProfileId : Option String
deriving DecidableEq

/-- Python `request.headers.get(k) if request.headers.get(k) else old`
for an `Option`-valued global. -/
def pyOrElse (h old : Option String) : Option String :=
  if pyTruthy h then h else old

/-- Python `request.headers.get(k) if request.headers.get(k) else old`
for a `str`-valued global. -/
def pyOrElseStr (h : Option String) (old : String) : String :=
  match h with
  | some v => if v.isEmpty then old else v
  | none => old

/-- The global-override block of `connectAvatar` (app.py lines 94-99):
deployment name, search index name and TTS voice are replaced only when
the header is truthy; the custom-voice endpoint id and the
personal-voice speaker profile id are replaced unconditionally by the
header value (`none` when absent). -/
def connectAvatarOverrides (h : ConnectHeaders) (s : AppState) : AppState :=
  { s with
    azure_openai_deployment_name := pyOrElse h.aoaiDeploymentName s.azure_openai_deployment_name
    cognitive_search_index_name := pyOrElse h.cognitiveSearchIndexName s.cognitive_search_index_name
    tts_voice := pyOrElseStr h.ttsVoice s.tts_voice
    custom_voice_endpoint_id := h.customVoiceEndpointId
    personal_voice_speaker_profile_id := h.personalVoiceSpeakerProfileId }

/-- `speakText(text, voice, speaker_profile_id, ending_silence_ms)`:
builds the SSML document sent to the synthesizer. A first document
without a break directive is built, then overwritten by a variant that
appends `<break time=...ms />` when `ending_silence_ms > 0`. The
newlines of the Python triple-quoted f-strings are kept; the leading
indentation spaces of the source layout are abbreviated to one space. -/
def speakText (text voice : String) (speaker_profile_id : Option String) (ending_silence_ms : Nat) : String :=
  let ssml :=
    "<speak version='1.0' xmlns='http://www.w3.org/2001/10/synthesis' xmlns:mstts='http://www.w3.org/2001/mstts' xml:lang='en-US'>\n <voice name='"
    ++ voice ++ "'>\n <mstts:ttsembedding speakerProfileId='"
    ++ pyShowOpt speaker_profile_id ++ "'>\n <mstts:leadingsilence-exact value='0'/>\n "
    ++ htmlEscape text ++ "\n </mstts:ttsembedding>\n </voice>\n</speak>"
  if ending_silence_ms > 0 then
    "<speak version='1.0' xmlns='http://www.w3.org/2001/10/synthesis' xmlns:mstts='http://www.w3.org/2001/mstts' xml:lang='en-US'>\n <voice name='"
    ++ voice ++ "'>\n <mstts:ttsembedding speakerProfileId='"
    ++ pyShowOpt speaker_profile_id ++ "'>\n <mstts:leadingsilence-exact value='0'/>\n "
    ++ htmlEscape text ++ "\n <break time='" ++ toString ending_silence_ms ++ "ms' />\n </mstts:ttsembedding>\n </voice>\n</speak>"
  else ssml

/-- Does an SSML document embed an explicit trailing pause directive? -/
def hasBreakDirective (ssml : String) : Bool :=
  hasSubstr ssml "<break time="

/-- `speakWithQueue(text, ending_silence_ms)`: appends the text (only
the text!) to `spoken_text_queue`; when `is_speaking` is false, spawns a
new drain-worker thread whose closure captures this call's
`ending_silence_ms`. The spawned thread has not yet run: it only sets
`is_speaking` once scheduled (see `step`). -/
def speakWithQueue (s : AppState) (text : String) (ending_silence_ms : Nat) : AppState :=
  { s with
    spoken_text_queue := s.spoken_text_queue ++ [text]
    workers :=
      if s.is_speaking then s.workers
      else s.workers ++ [{ phase := .spawned, ending_silence_ms := ending_silence_ms }] }

/-- One atomic step of the system: an enqueue call, or one step of the
drain-worker thread with index `i`. `workerStart` is the first statement
of the thread body (`is_speaking = True`); `workerStep` is one test of
the `while` condition, either popping the queue head and issuing the
blocking `speakText` call, or (queue empty) clearing `is_speaking` and
terminating; `workerEnd` is the return of the in-flight synthesis
call. -/
inductive Act where
  | enqueue (text : String) (ending_silence_ms : Nat)
  | workerStart (i : Nat)
  | workerStep (i : Nat)
  | workerEnd (i : Nat)
deriving DecidableEq

/-- The transition function of the interleaving model. A step whose
thread does not exist or is not at the right program point is a no-op
(that schedule is simply not enabled). -/
def step (s : AppState) (a : Act) : AppState :=
  match a with
  | .enqueue t m => speakWithQueue s t m
  | .workerStart i =>
    match s.workers.get? i with
    | some w =>
      if w.phase = .spawned then
        { s with is_speaking := true, workers := s.workers.set i { w with phase := .looping } }
      else s
    | none => s
  | .workerStep i =>
    match s.workers.get? i with
    | some w =>
      if w.phase = .looping then
        match s.spoken_text_queue with
        | [] => { s with is_speaking := false, workers := s.workers.eraseIdx i }
        | t :: rest =>
          { s with
            spoken_text_queue := rest
            workers := s.workers.set i { w with phase := .inCall t }
            trace := s.trace ++ [.synthBegin t s.tts_voice s.personal_voice_speaker_profile_id w.ending_silence_ms] }
      else s
    | none => s
  | .workerEnd i =>
    match s.workers.get? i with
    | some w =>
      match w.phase with
      | .inCall t =>
        { s with
          workers := s.workers.set i { w with phase := .looping }
          trace := s.trace ++ [.synthEnd t]
          last_speak_time := some (s.trace.length + 1) }
      | _ => s
    | none => s

/-- Run a schedule from a state. -/
def run (s : AppState) (acts : List Act) : AppState :=
  acts.foldl step s

/-- Does `P` hold in the start state and after every step of the
schedule? -/
def allStates (P : AppState → Bool) : AppState → List Act → Bool
  | s, [] => P s
  | s, a :: rest => P s && allStates P (step s a) rest

/-- Number of workers whose thread body has started executing. -/
def startedWorkers (s : AppState) : Nat :=
  (s.workers.filter (fun w => w.phase != .spawned)).length

/-- At most one worker thread exists. -/
def workerCountOk (s : AppState) : Bool :=
  decide (s.workers.length ≤ 1)

/-- Are the synthesis events of a trace properly bracketed with at most
one call in flight, each `synthEnd` matching the open `synthBegin`?
(`o` is the text of the currently open call, if any.) -/
def wellNestedFrom : Option String → List SpeechEvent → Bool
  | none, [] => true
  | some _, [] => false
  | none, .synthBegin t _ _ _ :: rest => wellNestedFrom (some t) rest
  | none, .synthEnd _ :: _ => false
  | some _, .synthBegin _ _ _ _ :: _ => false
  | some t, .synthEnd u :: rest => t = u && wellNestedFrom none rest

/-- Synthesis calls in a trace never overlap in time. -/
def wellNested (es : List SpeechEvent) : Bool :=
  wellNestedFrom none es

/-- The schedule in which every `speakWithQueue` call finds the system
idle and its spawned worker runs to completion (start, one pop+call,
call return, empty-queue exit) before anything else happens. -/
def seqDrainActs : List (String × Nat) → List Act
  | [] => []
  | p :: ps =>
    [.enqueue p.1 p.2, .workerStart 0, .workerStep 0, .workerEnd 0, .workerStep 0] ++ seqDrainActs ps

/-- Outcome of one `requests.post` to the token-issuance endpoint:
`success`/`httpError` complete and expose the body via `.text`
(`requests` does not raise on a non-2xx status); `raised` models a
raised exception (connection error etc.). -/
inductive ReqOutcome where
  | success (body : String)
  | httpError (body : String)
  | raised (msg : String)
deriving DecidableEq

/-- `refreshSpeechToken()`: the background refresh loop, driven by the
list of outcomes of its successive `requests.post` calls. Each
completed request unconditionally overwrites the stored token with the
response body; the loop body has no exception handler, so a raised
exception escapes the `while True` and the thread dies. Returns the
final stored token and whether the thread is still alive. -/
def refreshSpeechToken : List ReqOutcome → Option String → Option String × Bool
  | [], tok => (tok, true)
  | .success b :: rest, _ => refreshSpeechToken rest (some b)
  | .httpError b :: rest, _ => refreshSpeechToken rest (some b)
  | .raised _ :: _, tok => (tok, false)

/-- The global `sentence_level_punctuations`: punctuation marks that end
a sentence (ASCII and CJK). -/
def sentence_level_punctuations : List String :=
  [".", "?", "!", ":", ";", "。", "？", "！", "：", "；"]

/-- The global `enable_quick_reply` (constant `False` in the source). -/
def enable_quick_reply : Bool := false

/-- The global `quick_replies`. -/
def quick_replies : List String :=
  ["Let me take a look.", "Let me check.", "One moment, please."]

/-- Try to match the regex `\[doc(\d+)\]` (the `oyd_doc_regex` global)
at the head of the character list; on a match return the characters
after the match. -/
def matchDocRef : List Char → Option (List Char)
  | '[' :: 'd' :: 'o' :: 'c' :: rest =>
    let ds := rest.takeWhile Char.isDigit
    if ds.isEmpty then none
    else
      match rest.drop ds.length with
      | ']' :: rest2 => some rest2
      | _ => none
  | _ => none

/-- `oyd_doc_regex.search(s)`: does the string contain a `[docN]`
reference? -/
def oydSearchList : List Char → Bool
  | [] => false
  | c :: rest => (matchDocRef (c :: rest)).isSome || oydSearchList rest

/-- String form of `oydSearchList`. -/
def oydSearch (s : String) : Bool :=
  oydSearchList s.toList

/-- Fuel-driven worker for `oydSub`: each step consumes at least one
character, so fuel equal to the length of the list suffices. -/
def oydSubAux : Nat → List Char → List Char
  | 0, cs => cs
  | Nat.succ fuel, cs =>
    match cs with
    | [] => []
    | c :: rest =>
      match matchDocRef (c :: rest) with
      | some rest2 => oydSubAux fuel rest2
      | none => c :: oydSubAux fuel rest

/-- `oyd_doc_regex.sub(..., s)` with an empty replacement: every
`[docN]` reference is deleted. -/
def oydSub (s : String) : String :=
  String.mk (oydSubAux s.toList.length s.toList)

/-- One parsed `delta` object of a streamed completion record. A key
absent from the JSON object (or bound to JSON null) is `none`. In the
plain shape this is `choices[0].delta`; in the data-source shape it is
`choices[0].messages[0].delta`. -/
structure DeltaJson where
  role : Option String
  content : Option String
deriving DecidableEq

/-- Is a delta the data-source tool shape the code tests for:
`'role' in delta and delta['role'] == 'tool' and 'content' in delta`? -/
def isToolDelta (d : DeltaJson) : Bool :=
  d.role == some "tool" && d.content.isSome

/-- Plain-completion token extraction (app.py lines 370-372): the delta
content, when present, is the display token. -/
def processPlainDelta (d : DeltaJson) : Option String :=
  d.content

/-- Data-source token extraction (app.py lines 373-383). Returns the
display token (if any) and the new `tool_content`: a tool-tagged delta
overwrites `tool_content` and yields nothing; a content delta is the
display token after `[docN]` stripping (plus trim, only when the regex
matched) and the `[DONE]` filter. -/
def processDsDelta (d : DeltaJson) (tool_content : String) : Option String × String :=
  if isToolDelta d then (none, d.content.getD "")
  else
    match d.content with
    | none => (none, tool_content)
    | some c =>
      let c := if oydSearch c then pyStrip (oydSub c) else c
      if c = "[DONE]" then (none, tool_content) else (some c, tool_content)

/-- The loop-carried locals of `handleUserQuery` together with its two
output streams: the tokens yielded to the HTTP caller and the texts
passed to `speakWithQueue`, each in order. -/
structure PState where
  assistant_reply : String
  tool_content : String
  spoken_sentence : String
  yielded : List String
  enqueued : List String
deriving DecidableEq

/-- The locals at the top of the stream loop. -/
def initialPState : PState :=
  { assistant_reply := "", tool_content := "", spoken_sentence := "", yielded := [], enqueued := [] }

/-- The `if response_token is not None:` body (app.py lines 385-400):
yield the token, extend the assistant reply, and maintain the sentence
buffer — a newline token flushes the (stripped) buffer to the queue
unconditionally; otherwise the token (newlines removed) is appended and
a 1- or 2-character token starting with a sentence-level punctuation
mark flushes the buffer. -/
def handleResponseToken (st : PState) (response_token : String) : PState :=
  let st :=
    { st with
      yielded := st.yielded ++ [response_token]
      assistant_reply := st.assistant_reply ++ response_token }
  if response_token = "\n" || response_token = "\n\n" then
    { st with enqueued := st.enqueued ++ [pyStrip st.spoken_sentence], spoken_sentence := "" }
  else
    let tok := pyRemoveNewlines response_token
    let st := { st with spoken_sentence := st.spoken_sentence ++ tok }
    if (tok.length == 1 || tok.length == 2)
        && sentence_level_punctuations.any (fun punctuation => pyStartsWith tok punctuation) then
      { st with enqueued := st.enqueued ++ [pyStrip st.spoken_sentence], spoken_sentence := "" }
    else st

/-- Processing of one streamed delta: token extraction in the shape
selected by `len(data_sources) == 0`, then the token body. -/
def pstep (plain : Bool) (st : PState) (d : DeltaJson) : PState :=
  if plain then
    match processPlainDelta d with
    | none => st
    | some tok => handleResponseToken st tok
  else
    let r := processDsDelta d st.tool_content
    let st := { st with tool_content := r.2 }
    match r.1 with
    | none => st
    | some tok => handleResponseToken st tok

/-- The completion-provider response handed to `handleUserQuery`. The
byte-chunk reassembly of the source (suffix tests for a record boundary)
and the per-record JSON parsing are below this model: `deltas` is the
list of delta objects the records decode to, in stream order. -/
structure HttpResponse where
  ok : Bool
  status_code : Nat
  reason : String
  deltas : List DeltaJson
deriving DecidableEq

/-- The observable outcome of one `handleUserQuery` call. `yielded` are
the display tokens the generator produced before returning or raising;
`enqueued` are the `speakWithQueue` call arguments in order;
`messages`/`spoken_text_queue` are the new values of those globals;
`error` is the raised exception message, if any. -/
structure ChatResult where
  yielded : List String
  enqueued : List String
  messages : List Message
  spoken_text_queue : List String
  url : String
  error : Option String
deriving DecidableEq

/-- `handleUserQuery(user_query)` (app.py lines 299-420), driven by the
provider response. Appends the user message, performs the barge-in stop
(clearing the pending queue) when a previous utterance is speaking,
aborts with an exception on a non-2xx response, otherwise folds the
stream deltas, flushes the leftover sentence buffer, and appends the
tool (data-source mode only) and assistant messages. The dead
quick-reply branch (`enable_quick_reply` is constantly false) would
raise a `TypeError`: it calls the zero-argument route `speak` with two
arguments. -/
def handleUserQuery (azure_openai_endpoint : String) (s : AppState) (user_query : String)
    (response : HttpResponse) : ChatResult :=
  let messages := s.messages ++ [{ role := "user", content := user_query }]
  let spoken_text_queue := if s.is_speaking then ([] : List String) else s.spoken_text_queue
  let url :=
    if s.data_sources.length > 0 then
      azure_openai_endpoint ++ "/openai/deployments/" ++ pyShowOpt s.azure_openai_deployment_name
        ++ "/extensions/chat/completions?api-version=2023-06-01-preview"
    else
      azure_openai_endpoint ++ "/openai/deployments/" ++ pyShowOpt s.azure_openai_deployment_name
        ++ "/chat/completions?api-version=2023-06-01-preview"
  if decide (s.data_sources.length > 0) && enable_quick_reply then
    { yielded := [], enqueued := [], messages := messages, spoken_text_queue := spoken_text_queue
      url := url
      error := some "TypeError: speak() takes 0 positional arguments but 2 were given" }
  else if response.ok = false then
    { yielded := [], enqueued := [], messages := messages, spoken_text_queue := spoken_text_queue
      url := url
      error := some ("Chat API response status: " ++ toString response.status_code ++ " " ++ response.reason) }
  else
    let st := response.deltas.foldl (pstep (s.data_sources.length == 0)) initialPState
    let st :=
      if st.spoken_sentence ≠ "" then
        { st with enqueued := st.enqueued ++ [pyStrip st.spoken_sentence], spoken_sentence := "" }
      else st
    let messages :=
      if s.data_sources.length > 0 then messages ++ [{ role := "tool", content := st.tool_content }]
      else messages
    let messages := messages ++ [{ role := "assistant", content := st.assistant_reply }]
    { yielded := st.yielded, enqueued := st.enqueued, messages := messages
      spoken_text_queue := spoken_text_queue ++ st.enqueued, url := url, error := none }

/-- The idle state right after import, with the voice and speaker
profile overridden (the two state fields the drain worker reads). -/
def idleState (v : String) (pr : Option String) : AppState :=
  { initialState with tts_voice := v, personal_voice_speaker_profile_id := pr }

/-- A schedule with two `speakWithQueue` calls that both observe
`is_speaking = False` (neither spawned thread has been scheduled yet),
after which both spawned threads run: the guard admits two workers. -/
def twoEnqueueActs : List Act :=
  [.enqueue "a" 0, .enqueue "b" 0, .workerStart 0, .workerStart 1, .workerStep 0, .workerStep 1]

/-- A schedule in which the second text is enqueued while the worker
spawned by the first call (with trailing silence 2000) is active, and
that worker then drains both entries. -/
def spawnerSilenceActs : List Act :=
  [.enqueue "a" 2000, .workerStart 0, .enqueue "b" 0, .workerStep 0, .workerEnd 0,
   .workerStep 0, .workerEnd 0]

/-- The provider response whose records decode to the five tokens of
the hello-world stream test. -/
def helloWorldResponse : HttpResponse :=
  { ok := true
    status_code := 200
    reason := "OK"
    deltas :=
      [{ role := none, content := some "Hello" },
       { role := none, content := some "," },
       { role := none, content := some " world" },
       { role := none, content := some "." },
       { role := none, content := some "\n" }] }

/-- A concrete data-source configuration (the shape
`initializeChatContext` builds). -/
def sampleDataSource : DataSource :=
  { sourceType := "AzureCognitiveSearch"
    endpoint := some "e"
    key := some "k"
    indexName := some "i"
    semanticConfiguration := ""
    queryType := "simple"
    fieldsMapping :=
      { contentFieldsSeparator := "\n"
        contentFields := ["content"]
        filepathField := none
        titleField := some "title"
        urlField := none }
    inScope := true
    roleInformation := "p" }

/-- The idle state with one data source configured. -/
def dsState : AppState :=
  { initialState with data_sources := [sampleDataSource] }

/-- A data-source-mode response with two tool-tagged deltas followed by
one content delta. -/
def twoToolResponse : HttpResponse :=
  { ok := true
    status_code := 200
    reason := "OK"
    deltas :=
      [{ role := some "tool", content := some "a" },
       { role := some "tool", content := some "b" },
       { role := none, content := some "hi" }] }

/-- A failing provider response. -/
def failedResponse : HttpResponse :=
  { ok := false
    status_code := 500
    reason := "Internal Server Error"
    deltas := [] }

/-- The idle state with a truthy search index name (the mutable global
consulted by `initializeChatContext`). -/
def indexedState : AppState :=
  { initialState with cognitive_search_index_name := some "idx" }

/-- Headers for a connect request that overrides the deployment name,
the voice and the custom-voice endpoint, leaves the search index header
out, and carries no personal-voice profile. -/
def sampleHeaders : ConnectHeaders :=
  { aoaiDeploymentName := some "d2"
    cognitiveSearchIndexName := none
    ttsVoice := some "v2"
    customVoiceEndpointId := some "c2"
    personalVoiceSpeakerProfileId := none }

lemma run_append (s : AppState) (as bs : List Act) :
    run s (as ++ bs) = run (run s as) bs := by
  simp [run, List.foldl_append]

lemma allStates_first (P : AppState → Bool) (s : AppState) (l : List Act)
    (h : allStates P s l = true) : P s = true := by
  cases l with
  | nil => simpa [allStates] using h
  | cons a rest =>
    simp only [allStates, Bool.and_eq_true] at h
    exact h.1

lemma allStates_append (P : AppState → Bool) (as bs : List Act) : ∀ s : AppState,
    allStates P s (as ++ bs) = true ↔
      (allStates P s as = true ∧ allStates P (run s as) bs = true) := by
  induction as with
  | nil =>
    intro s
    simp only [List.nil_append, allStates, run, List.foldl_nil]
    exact ⟨fun h => ⟨allStates_first P s bs h, h⟩, fun h => h.2⟩
  | cons a as ih =>
    intro s
    simp only [List.cons_append, allStates, Bool.and_eq_true, run, List.foldl_cons]
    rw [show (List.foldl step (step s a) as) = run (step s a) as from rfl]
    constructor
    · rintro ⟨h1, h2⟩
      rcases (ih (step s a)).mp h2 with ⟨h3, h4⟩
      exact ⟨⟨h1, h3⟩, h4⟩
    · rintro ⟨⟨h1, h3⟩, h4⟩
      exact ⟨h1, (ih (step s a)).mpr ⟨h3, h4⟩⟩

/-- Effect of one sequential enqueue-and-drain block from an idle
state: exactly one synthesis call for the new text, carrying the
current voice, speaker profile and this call's trailing-silence value,
after which the system is idle again. -/
lemma run_seqBlock (s : AppState) (t : String) (m : Nat)
    (hq : s.spoken_text_queue = []) (hsp : s.is_speaking = false) (hw : s.workers = []) :
    run s [.enqueue t m, .workerStart 0, .workerStep 0, .workerEnd 0, .workerStep 0] =
      { s with
        trace := s.trace ++ [.synthBegin t s.tts_voice s.personal_voice_speaker_profile_id m, .synthEnd t]
        last_speak_time := some (s.trace.length + 2) } := by
  obtain ⟨f1, f2, f3, f4, f5, f6, f7, f8, f9, f10, f11, f12, f13, f14, f15, f16⟩ := s
  simp only [AppState.spoken_text_queue] at hq
  simp only [AppState.is_speaking] at hsp
  simp only [AppState.workers] at hw
  subst hq; subst hsp; subst hw
  simp [run, step, speakWithQueue]

lemma allStates_seqBlock (s : AppState) (t : String) (m : Nat)
    (hq : s.spoken_text_queue = []) (hsp : s.is_speaking = false) (hw : s.workers = []) :
    allStates workerCountOk s [.enqueue t m, .workerStart 0, .workerStep 0, .workerEnd 0, .workerStep 0] = true := by
  obtain ⟨f1, f2, f3, f4, f5, f6, f7, f8, f9, f10, f11, f12, f13, f14, f15, f16⟩ := s
  simp only [AppState.spoken_text_queue] at hq
  simp only [AppState.is_speaking] at hsp
  simp only [AppState.workers] at hw
  subst hq; subst hsp; subst hw
  simp [allStates, step, speakWithQueue, workerCountOk]

/-- Running the sequential drain schedule from an idle state: the trace
grows by one begin/end pair per enqueued entry, in enqueue (FIFO)
order, each carrying the entry's own trailing-silence value; the system
is idle again afterwards; and at most one worker thread exists at every
intermediate point. -/
lemma run_seqDrain (ps : List (String × Nat)) : ∀ s : AppState,
    s.spoken_text_queue = [] → s.is_speaking = false → s.workers = [] →
    (run s (seqDrainActs ps)).trace
        = s.trace ++ ps.flatMap (fun p =>
            [SpeechEvent.synthBegin p.1 s.tts_voice s.personal_voice_speaker_profile_id p.2,
             SpeechEvent.synthEnd p.1])
      ∧ (run s (seqDrainActs ps)).spoken_text_queue = []
      ∧ (run s (seqDrainActs ps)).is_speaking = false
      ∧ (run s (seqDrainActs ps)).workers = []
      ∧ (run s (seqDrainActs ps)).tts_voice = s.tts_voice
      ∧ (run s (seqDrainActs ps)).personal_voice_speaker_profile_id = s.personal_voice_speaker_profile_id
      ∧ allStates workerCountOk s (seqDrainActs ps) = true := by
  induction ps with
  | nil =>
    intro s hq hsp hw
    simp [seqDrainActs, run, allStates, workerCountOk, hq, hsp, hw]
  | cons p ps ih =>
    intro s hq hsp hw
    have hblock := run_seqBlock s p.1 p.2 hq hsp hw
    have hall := allStates_seqBlock s p.1 p.2 hq hsp hw
    rw [show seqDrainActs (p :: ps)
        = [Act.enqueue p.1 p.2, .workerStart 0, .workerStep 0, .workerEnd 0, .workerStep 0]
          ++ seqDrainActs ps from rfl]
    rw [run_append, hblock]
    have hrest := ih { s with
        trace := s.trace ++ [.synthBegin p.1 s.tts_voice s.personal_voice_speaker_profile_id p.2, .synthEnd p.1]
        last_speak_time := some (s.trace.length + 2) } (by simp [hq]) (by simp [hsp]) (by simp [hw])
    obtain ⟨h1, h2, h3, h4, h5, h6, h7⟩ := hrest
    refine ⟨?_, h2, h3, h4, by simpa using h5, by simpa using h6, ?_⟩
    · rw [h1]
      simp [List.flatMap_cons, List.append_assoc]
    · rw [allStates_append]
      refine ⟨hall, ?_⟩
      rw [hblock]
      exact h7

/-- A trace of consecutive begin/end pairs is properly bracketed. -/
lemma wellNested_blocks (ps : List (String × Nat)) (v : String) (pr : Option String) :
    wellNested (ps.flatMap (fun p =>
      [SpeechEvent.synthBegin p.1 v pr p.2, SpeechEvent.synthEnd p.1])) = true := by
  unfold wellNested
  induction ps with
  | nil => simp [wellNestedFrom]
  | cons p ps ih => simpa [wellNestedFrom] using ih

lemma handleResponseToken_tool_content (st : PState) (t : String) :
    (handleResponseToken st t).tool_content = st.tool_content := by
  unfold handleResponseToken
  split
  · rfl
  · dsimp only
    split <;> rfl

/-- `handleResponseToken` neither reads nor writes `tool_content`: it
commutes with overriding that field. -/
lemma handleResponseToken_set_tool (st : PState) (tc t : String) :
    handleResponseToken { st with tool_content := tc } t
      = { handleResponseToken st t with tool_content := tc } := by
  unfold handleResponseToken
  split
  · rfl
  · dsimp only
    split <;> rfl

/-- The running overwrite of `tool_content` performed by the stream
loop (`tool_content = ...` keeps only the latest tool delta). -/
def toolContentFold (ds : List DeltaJson) (init : String) : String :=
  ds.foldl (fun acc d => if isToolDelta d then d.content.getD "" else acc) init

lemma pstep_tool (st : PState) (d : DeltaJson) (h : isToolDelta d = true) :
    pstep false st d = { st with tool_content := d.content.getD "" } := by
  simp [pstep, processDsDelta, h]

lemma pstep_set_tool (st : PState) (tc : String) (d : DeltaJson) (h : isToolDelta d = false) :
    pstep false { st with tool_content := tc } d = { pstep false st d with tool_content := tc } := by
  unfold pstep processDsDelta
  simp only [h, Bool.false_eq_true, if_false]
  cases hc : d.content with
  | none => rfl
  | some c =>
    by_cases hd : (if oydSearch c = true then pyStrip (oydSub c) else c) = "[DONE]"
    · simp [hd]
    · simp [hd, handleResponseToken_set_tool]

/-- Splitting the stream fold: the tool-tagged deltas only drive the
`tool_content` overwrite; every other component of the loop state is
the fold over the non-tool deltas alone. -/
lemma foldl_pstep_filter (ds : List DeltaJson) : ∀ (st : PState) (tc : String),
    ds.foldl (pstep false) { st with tool_content := tc }
      = { (ds.filter (fun d => !isToolDelta d)).foldl (pstep false) st with
          tool_content := toolContentFold ds tc } := by
  induction ds with
  | nil => intro st tc; rfl
  | cons d ds ih =>
    intro st tc
    cases h : isToolDelta d with
    | true =>
      simp only [List.foldl_cons, List.filter_cons, h, Bool.not_true, Bool.false_eq_true,
        if_false, toolContentFold]
      rw [pstep_tool _ d h]
      have := ih st (d.content.getD "")
      simp only [toolContentFold] at this
      simpa [h] using this
    | false =>
      simp only [List.foldl_cons, List.filter_cons, h, Bool.not_false, if_pos, toolContentFold]
      rw [pstep_set_tool st tc d h]
      have := ih (pstep false st d) tc
      simp only [toolContentFold] at this
      simpa [h] using this

/-- No request of the list raised an exception. -/
def noRaise (outcomes : List ReqOutcome) : Bool :=
  outcomes.all (fun o => match o with | .raised _ => false | _ => true)

/-- The token value after applying the bodies of a list of completed
requests (each completed request overwrites the stored token). -/
def lastBody (outcomes : List ReqOutcome) (tok : Option String) : Option String :=
  outcomes.foldl
    (fun acc o => match o with | .success b => some b | .httpError b => some b | .raised _ => acc) tok

lemma refreshSpeechToken_noRaise (outcomes : List ReqOutcome) : ∀ tok : Option String,
    noRaise outcomes = true →
    refreshSpeechToken outcomes tok = (lastBody outcomes tok, true) := by
  induction outcomes with
  | nil => intro tok _; rfl
  | cons o rest ih =>
    intro tok h
    simp only [noRaise, List.all_cons, Bool.and_eq_true] at h
    cases o with
    | success b => exact ih (some b) h.2
    | httpError b => exact ih (some b) h.2
    | raised m => simp at h

lemma refreshSpeechToken_raise (pre : List ReqOutcome) : ∀ (tok : Option String)
    (m : String) (post : List ReqOutcome), noRaise pre = true →
    refreshSpeechToken (pre ++ .raised m :: post) tok = (lastBody pre tok, false) := by
  induction pre with
  | nil => intro tok m post _; rfl
  | cons o pre ih =>
    intro tok m post h
    simp only [noRaise, List.all_cons, Bool.and_eq_true] at h
    cases o with
    | success b => exact ih (some b) m post h.2
    | httpError b => exact ih (some b) m post h.2
    | raised q => simp at h

/-- C1 (counterexample): the guard of `speakWithQueue` is a plain read
of `is_speaking` while the flag is only set later, inside the spawned
thread; in the schedule `twoEnqueueActs` two enqueue calls both observe
the flag unset, two workers start, and their synthesis calls overlap —
refuting both "at most one drain worker is ever active" and the
non-overlap guarantee of the claim. -/
theorem speakWithQueue_two_workers_counterexample :
    startedWorkers (run initialState twoEnqueueActs) = 2
      ∧ (run initialState twoEnqueueActs).trace
        = [.synthBegin ("a") ("en-US-JennyMultilingualV2Neural") none 0,
           .synthBegin ("b") ("en-US-JennyMultilingualV2Neural") none 0]
      ∧ wellNested ((run initialState twoEnqueueActs).trace) = false := by
  refine ⟨by decide, by decide, by decide⟩

/-- C1 (amended): under schedules in which each spawned worker runs to
completion before the next enqueue (the guard flag is never raced), the
synthesis calls occur in exactly the FIFO enqueue order, never overlap,
and at most one worker thread exists at every point. -/
theorem speakWithQueue_seq_fifo_single_worker (ps : List (String × Nat)) (v : String) (pr : Option String) :
    (run (idleState v pr) (seqDrainActs ps)).trace
        = ps.flatMap (fun p => [SpeechEvent.synthBegin p.1 v pr p.2, SpeechEvent.synthEnd p.1])
      ∧ wellNested ((run (idleState v pr) (seqDrainActs ps)).trace) = true
      ∧ allStates workerCountOk (idleState v pr) (seqDrainActs ps) = true := by
  obtain ⟨h1, _, _, _, _, _, h7⟩ := run_seqDrain ps (idleState v pr) rfl rfl rfl
  have ht : (run (idleState v pr) (seqDrainActs ps)).trace
      = ps.flatMap (fun p => [SpeechEvent.synthBegin p.1 v pr p.2, SpeechEvent.synthEnd p.1]) := by
    simpa [idleState, initialState] using h1
  refine ⟨ht, ?_, h7⟩
  rw [ht]
  exact wellNested_blocks ps v pr

/-- C2 (counterexample): on the token stream Hello / comma / world /
period / newline in plain mode, the code flushes the sentence buffer on
the newline token unconditionally, so `speakWithQueue` is called a
second time with the empty string — the queue receives two entries, not
exactly one. -/
theorem chat_stream_hello_world_counterexample :
    (handleUserQuery ("ep") initialState ("hi") helloWorldResponse).enqueued
        = ["Hello, world.", ""]
      ∧ (handleUserQuery ("ep") initialState ("hi") helloWorldResponse).enqueued
        ≠ ["Hello, world."] := by
  refine ⟨by decide, by decide⟩

/-- C2 (amended): the processor yields exactly the five tokens; it
enqueues the trimmed sentence and then, on the trailing
newline, additionally enqueues the empty (trimmed) sentence buffer; no
error is raised and history gains the user and assistant messages. -/
theorem chat_stream_hello_world_tokens :
    (handleUserQuery ("ep") initialState ("hi") helloWorldResponse).yielded
        = ["Hello", ",", " world", ".", "\n"]
      ∧ (handleUserQuery ("ep") initialState ("hi") helloWorldResponse).enqueued
        = ["Hello, world.", ""]
      ∧ (handleUserQuery ("ep") initialState ("hi") helloWorldResponse).error = none
      ∧ (handleUserQuery ("ep") initialState ("hi") helloWorldResponse).messages
        = [{ role := "user", content := "hi" },
           { role := "assistant", content := "Hello, world.\n" }] := by
  refine ⟨by decide, by decide, by decide, by decide⟩

/-- C3 (confirmed): a non-2xx completion response makes
`handleUserQuery` raise before the stream loop: no display token is
yielded, nothing is enqueued for speech, and the raised error carries
the response status. -/
theorem handleUserQuery_non2xx_no_tokens (ep : String) (s : AppState) (q : String)
    (resp : HttpResponse) (hok : resp.ok = false) :
    (handleUserQuery ep s q resp).yielded = []
      ∧ (handleUserQuery ep s q resp).enqueued = []
      ∧ (handleUserQuery ep s q resp).error
        = some ("Chat API response status: " ++ toString resp.status_code ++ " " ++ resp.reason) := by
  unfold handleUserQuery
  simp [enable_quick_reply, hok]

/-- C3 (witness): the theorem at a concrete failing response. -/
theorem handleUserQuery_non2xx_no_tokens_witness :
    (handleUserQuery ("ep") initialState ("hi") failedResponse).yielded = []
      ∧ (handleUserQuery ("ep") initialState ("hi") failedResponse).enqueued = []
      ∧ (handleUserQuery ("ep") initialState ("hi") failedResponse).error
        = some ("Chat API response status: " ++ toString (500 : Nat) ++ " " ++ "Internal Server Error") := by
  exact handleUserQuery_non2xx_no_tokens ("ep") initialState ("hi") failedResponse rfl

/-- C5 (counterexample): the queue stores bare text; the worker applies
the `ending_silence_ms` captured from the call that spawned it to every
entry it drains. Enqueuing ("a", 2000) and then ("b", 0) while the
worker is active synthesizes "b" with trailing silence 2000 — whose
SSML embeds a pause directive — contradicting "an entry enqueued with
trailingSilenceMs = 0 is synthesized without a pause directive". -/
theorem queue_entry_silence_counterexample :
    (run initialState spawnerSilenceActs).trace
        = [.synthBegin ("a") ("en-US-JennyMultilingualV2Neural") none 2000, .synthEnd ("a"),
           .synthBegin ("b") ("en-US-JennyMultilingualV2Neural") none 2000, .synthEnd ("b")]
      ∧ hasBreakDirective (speakText ("b") ("en-US-JennyMultilingualV2Neural") none 2000) = true := by
  refine ⟨by decide, by set_option maxRecDepth 4000 in decide⟩

/-- C5 (amended): a worker synthesizes every entry it drains with the
trailing-silence value of its own spawning call (first conjunct: the
entry enqueued with 0 is rendered with the spawner's 2000); only under
sequential drain does each entry get its own value (second conjunct);
`speakText` embeds the pause directive for a positive value and omits
it for zero (checked on concrete documents). -/
theorem worker_silence_semantics :
    (∀ (a b : String) (ma mb : Nat),
        (run initialState
            [.enqueue a ma, .workerStart 0, .enqueue b mb, .workerStep 0, .workerEnd 0,
             .workerStep 0, .workerEnd 0]).trace
          = [.synthBegin a ("en-US-JennyMultilingualV2Neural") none ma, .synthEnd a,
             .synthBegin b ("en-US-JennyMultilingualV2Neural") none ma, .synthEnd b])
      ∧ (∀ (ps : List (String × Nat)) (v : String) (pr : Option String),
          (run (idleState v pr) (seqDrainActs ps)).trace
            = ps.flatMap (fun p => [SpeechEvent.synthBegin p.1 v pr p.2, SpeechEvent.synthEnd p.1]))
      ∧ hasBreakDirective (speakText ("Hi") ("en-US-JennyMultilingualV2Neural") none 2000) = true
      ∧ hasBreakDirective (speakText ("Hi") ("en-US-JennyMultilingualV2Neural") none 0) = false := by
  refine ⟨?_, ?_, by set_option maxRecDepth 4000 in decide, by set_option maxRecDepth 4000 in decide⟩
  · intro a b ma mb
    simp [run, step, speakWithQueue, initialState]
  · intro ps v pr
    obtain ⟨h1, _⟩ := run_seqDrain ps (idleState v pr) rfl rfl rfl
    simpa [idleState, initialState] using h1

/-- C6 (confirmed): `initializeChatContext` with prompt p: without a
configured data source (endpoint, key and index name all truthy),
history is exactly the system message with content p and no data source
exists; with one, history is empty and exactly one data-source config
with roleInformation p exists. -/
theorem initializeChatContext_resetHistory (cse csk : Option String) (p : String) (s : AppState) :
    ((pyTruthy cse && pyTruthy csk && pyTruthy s.cognitive_search_index_name) = false →
        (initializeChatContext cse csk p s).messages = [{ role := "system", content := p }]
          ∧ (initializeChatContext cse csk p s).data_sources = [])
      ∧ ((pyTruthy cse && pyTruthy csk && pyTruthy s.cognitive_search_index_name) = true →
        (initializeChatContext cse csk p s).messages = []
          ∧ (initializeChatContext cse csk p s).data_sources.map (fun d => d.roleInformation) = [p]
          ∧ (initializeChatContext cse csk p s).data_sources.length = 1) := by
  constructor <;> intro h <;> simp [initializeChatContext, h]

/-- C6 (witness): the theorem at an unconfigured and at a configured
concrete state. -/
theorem initializeChatContext_resetHistory_witness :
    ((initializeChatContext none none ("be helpful") initialState).messages
          = [{ role := "system", content := "be helpful" }]
        ∧ (initializeChatContext none none ("be helpful") initialState).data_sources = [])
      ∧ ((initializeChatContext (some "se") (some "sk") ("be helpful") indexedState).messages = []
        ∧ (initializeChatContext (some "se") (some "sk") ("be helpful") indexedState).data_sources.map
            (fun d => d.roleInformation) = ["be helpful"]
        ∧ (initializeChatContext (some "se") (some "sk") ("be helpful") indexedState).data_sources.length = 1) := by
  exact ⟨(initializeChatContext_resetHistory none none ("be helpful") initialState).1 (by decide),
         (initializeChatContext_resetHistory (some "se") (some "sk") ("be helpful") indexedState).2 (by decide)⟩

/-- C7 (counterexample): on a non-2xx issuance response the loop body
still overwrites the stored token with the response body (the prior
token is not left in place); and a raised request exception escapes the
handler-less loop, so the thread dies and a later successful tick never
happens — refuting "survives the failure and retries on its next
scheduled tick". -/
theorem refreshSpeechToken_failure_counterexample :
    refreshSpeechToken [.httpError ("401 Access Denied")] (some "old-token")
        = (some ("401 Access Denied"), true)
      ∧ refreshSpeechToken [.raised ("ConnectionError"), .success ("fresh")] (some "old-token")
        = (some "old-token", false) := by
  refine ⟨rfl, rfl⟩

/-- C7 (amended): every completed request (success or HTTP error)
unconditionally replaces the stored token with the response body text;
the first raised exception terminates the refresh loop permanently,
freezing the token at its value after the preceding completed
requests. -/
theorem refreshSpeechToken_overwrite_or_die (outcomes : List ReqOutcome) (tok : Option String) :
    (noRaise outcomes = true → refreshSpeechToken outcomes tok = (lastBody outcomes tok, true))
      ∧ ∀ (pre : List ReqOutcome) (m : String) (post : List ReqOutcome),
          outcomes = pre ++ .raised m :: post → noRaise pre = true →
          refreshSpeechToken outcomes tok = (lastBody pre tok, false) := by
  refine ⟨fun h => refreshSpeechToken_noRaise outcomes tok h, ?_⟩
  rintro pre m post rfl h
  exact refreshSpeechToken_raise pre tok m post h

/-- C7 (witness): the amended theorem at a raise-free run and at a run
interrupted by an exception. -/
theorem refreshSpeechToken_overwrite_or_die_witness :
    refreshSpeechToken [.success ("t1"), .httpError ("e1")] none
        = (lastBody [.success ("t1"), .httpError ("e1")] none, true)
      ∧ refreshSpeechToken [.success ("t1"), .raised ("conn"), .success ("t2")] (some "old")
        = (lastBody [ReqOutcome.success ("t1")] (some "old"), false) := by
  exact ⟨(refreshSpeechToken_overwrite_or_die [.success ("t1"), .httpError ("e1")] none).1 (by decide),
         (refreshSpeechToken_overwrite_or_die [.success ("t1"), .raised ("conn"), .success ("t2")]
            (some "old")).2 [ReqOutcome.success ("t1")] ("conn") [ReqOutcome.success ("t2")] rfl (by decide)⟩

/-- C8 (confirmed): when `handleUserQuery` aborts on a non-2xx
response, the user message has already been appended and is not rolled
back: the new history is the prior history plus the user message, and
an error is raised. -/
theorem handleUserQuery_non2xx_history (ep : String) (s : AppState) (q : String)
    (resp : HttpResponse) (hok : resp.ok = false) :
    (handleUserQuery ep s q resp).messages = s.messages ++ [{ role := "user", content := q }]
      ∧ (handleUserQuery ep s q resp).error.isSome = true := by
  unfold handleUserQuery
  simp [enable_quick_reply, hok]

/-- C8 (witness): the theorem at a concrete failing response. -/
theorem handleUserQuery_non2xx_history_witness :
    (handleUserQuery ("ep") initialState ("hi") failedResponse).messages
        = initialState.messages ++ [{ role := "user", content := "hi" }]
      ∧ (handleUserQuery ("ep") initialState ("hi") failedResponse).error.isSome = true := by
  exact handleUserQuery_non2xx_history ("ep") initialState ("hi") failedResponse rfl

/-- C10 (confirmed): clearing the chat history only rebuilds
`messages`/`data_sources` (and sets the chat-initiated flag): the
spoken-text queue, the speaking flag, the last speak time, the
synthesizer handle, both stored tokens, the live workers and the
synthesis trace are all left unchanged. -/
theorem clearChatHistory_frame (cse csk : Option String) (p : String) (s : AppState) :
    (clearChatHistory cse csk p s).spoken_text_queue = s.spoken_text_queue
      ∧ (clearChatHistory cse csk p s).is_speaking = s.is_speaking
      ∧ (clearChatHistory cse csk p s).last_speak_time = s.last_speak_time
      ∧ (clearChatHistory cse csk p s).speech_synthesizer = s.speech_synthesizer
      ∧ (clearChatHistory cse csk p s).speech_token = s.speech_token
      ∧ (clearChatHistory cse csk p s).ice_token = s.ice_token
      ∧ (clearChatHistory cse csk p s).workers = s.workers
      ∧ (clearChatHistory cse csk p s).trace = s.trace := by
  exact ⟨rfl, rfl, rfl, rfl, rfl, rfl, rfl, rfl⟩

/-- C4 (counterexample): two tool-tagged deltas "a" then "b" — the
stream loop overwrites `tool_content` (plain assignment, not
accumulation), so the single tool message appended to history carries
only the last delta's content "b", not the accumulation "ab". -/
theorem tool_delta_overwrite_counterexample :
    (handleUserQuery ("ep") dsState ("q") twoToolResponse).messages
        = [{ role := "user", content := "q" }, { role := "tool", content := "b" },
           { role := "assistant", content := "hi" }]
      ∧ (handleUserQuery ("ep") dsState ("q") twoToolResponse).yielded = ["hi"]
      ∧ ("b" : String) ≠ "a" ++ "b" := by
  refine ⟨by decide, by decide, by decide⟩

/-- C4 (amended): in data-source mode, tool-tagged deltas never
contribute to the yielded display tokens or to the speech queue
(removing them from the stream changes neither), each tool delta
overwrites the stored tool content (last one wins), and after stream
exhaustion exactly one tool message carrying that last content is
appended to history, before the assistant message. -/
theorem tool_deltas_not_yielded_last_wins (ep : String) (s : AppState) (q : String)
    (resp : HttpResponse) (hok : resp.ok = true) (hds : 0 < s.data_sources.length) :
    (handleUserQuery ep s q resp).yielded
        = (handleUserQuery ep s q
            { resp with deltas := resp.deltas.filter (fun d => !isToolDelta d) }).yielded
      ∧ (handleUserQuery ep s q resp).enqueued
        = (handleUserQuery ep s q
            { resp with deltas := resp.deltas.filter (fun d => !isToolDelta d) }).enqueued
      ∧ ∃ a : String, (handleUserQuery ep s q resp).messages
          = s.messages ++ [{ role := "user", content := q },
              { role := "tool", content := toolContentFold resp.deltas "" },
              { role := "assistant", content := a }] := by
  have hne : s.data_sources.length ≠ 0 := Nat.pos_iff_ne_zero.mp hds
  have hbeq : (s.data_sources.length == 0) = false := by simpa using hne
  have hfold := foldl_pstep_filter resp.deltas initialPState ""
  rw [show ({ initialPState with tool_content := "" } : PState) = initialPState from rfl] at hfold
  unfold handleUserQuery
  simp only [enable_quick_reply, Bool.and_false, Bool.false_eq_true, if_false, hok, hbeq, hfold]
  by_cases hss :
      (List.foldl (pstep false) initialPState
        (List.filter (fun d => !isToolDelta d) resp.deltas)).spoken_sentence = ""
  · simp [hss, hds, hne]
  · simp [hss, hds, hne]

/-- C4 (witness): the amended theorem at the concrete two-tool-delta
stream. -/
theorem tool_deltas_not_yielded_last_wins_witness :
    (handleUserQuery ("ep") dsState ("q") twoToolResponse).yielded
        = (handleUserQuery ("ep") dsState ("q")
            { twoToolResponse with deltas := twoToolResponse.deltas.filter (fun d => !isToolDelta d) }).yielded
      ∧ (handleUserQuery ("ep") dsState ("q") twoToolResponse).enqueued
        = (handleUserQuery ("ep") dsState ("q")
            { twoToolResponse with deltas := twoToolResponse.deltas.filter (fun d => !isToolDelta d) }).enqueued
      ∧ ∃ a : String, (handleUserQuery ("ep") dsState ("q") twoToolResponse).messages
          = dsState.messages ++ [{ role := "user", content := "q" },
              { role := "tool", content := toolContentFold twoToolResponse.deltas "" },
              { role := "assistant", content := a }] := by
  exact tool_deltas_not_yielded_last_wins ("ep") dsState ("q") twoToolResponse rfl (by decide)

/-- C9 (confirmed): `connectAvatar` overwrites the process-wide voice
and deployment configuration from the request headers — deployment
name, search index name and TTS voice only when the header is present
(truthy), the custom-voice endpoint id and personal-voice speaker
profile id unconditionally (becoming `none` when absent) — and the
stored values are the ones all subsequent operations read: a
subsequently enqueued utterance is synthesized with the stored voice
and speaker profile, every subsequent chat request builds its provider
URL from the stored deployment name, and a subsequent chat-context
(re)initialization builds its data-source config from the stored search
index name. -/
theorem connectAvatar_overrides_spec (h : ConnectHeaders) (s : AppState) :
    (pyTruthy h.aoaiDeploymentName = true →
        (connectAvatarOverrides h s).azure_openai_deployment_name = h.aoaiDeploymentName)
      ∧ (pyTruthy h.aoaiDeploymentName = false →
        (connectAvatarOverrides h s).azure_openai_deployment_name = s.azure_openai_deployment_name)
      ∧ (pyTruthy h.cognitiveSearchIndexName = true →
        (connectAvatarOverrides h s).cognitive_search_index_name = h.cognitiveSearchIndexName)
      ∧ (pyTruthy h.cognitiveSearchIndexName = false →
        (connectAvatarOverrides h s).cognitive_search_index_name = s.cognitive_search_index_name)
      ∧ (∀ v : String, h.ttsVoice = some v → v ≠ "" → (connectAvatarOverrides h s).tts_voice = v)
      ∧ (pyTruthy h.ttsVoice = false → (connectAvatarOverrides h s).tts_voice = s.tts_voice)
      ∧ (connectAvatarOverrides h s).custom_voice_endpoint_id = h.customVoiceEndpointId
      ∧ (connectAvatarOverrides h s).personal_voice_speaker_profile_id = h.personalVoiceSpeakerProfileId
      ∧ (s.spoken_text_queue = [] → s.is_speaking = false → s.workers = [] →
          ∀ (t : String) (m : Nat),
            (run (connectAvatarOverrides h s) (seqDrainActs [(t, m)])).trace
              = s.trace ++ [SpeechEvent.synthBegin t (connectAvatarOverrides h s).tts_voice
                    (connectAvatarOverrides h s).personal_voice_speaker_profile_id m,
                  SpeechEvent.synthEnd t])
      ∧ (∀ (ep uq : String) (resp : HttpResponse),
          (handleUserQuery ep (connectAvatarOverrides h s) uq resp).url
            = if (connectAvatarOverrides h s).data_sources.length > 0 then
                ep ++ "/openai/deployments/"
                  ++ pyShowOpt (connectAvatarOverrides h s).azure_openai_deployment_name
                  ++ "/extensions/chat/completions?api-version=2023-06-01-preview"
              else
                ep ++ "/openai/deployments/"
                  ++ pyShowOpt (connectAvatarOverrides h s).azure_openai_deployment_name
                  ++ "/chat/completions?api-version=2023-06-01-preview")
      ∧ (∀ (cse csk : Option String) (p : String),
          (initializeChatContext cse csk p (connectAvatarOverrides h s)).data_sources.map
              (fun d => d.indexName)
            = if pyTruthy cse && pyTruthy csk
                  && pyTruthy (connectAvatarOverrides h s).cognitive_search_index_name then
                [(connectAvatarOverrides h s).cognitive_search_index_name]
              else []) := by
  refine ⟨?_, ?_, ?_, ?_, ?_, ?_, rfl, rfl, ?_, ?_, ?_⟩
  · intro hv; simp [connectAvatarOverrides, pyOrElse, hv]
  · intro hv; simp [connectAvatarOverrides, pyOrElse, hv]
  · intro hv; simp [connectAvatarOverrides, pyOrElse, hv]
  · intro hv; simp [connectAvatarOverrides, pyOrElse, hv]
  · intro v hv hne
    simp [connectAvatarOverrides, pyOrElseStr, hv, String.isEmpty_iff, hne]
  · intro hv
    cases hh : h.ttsVoice with
    | none => simp [connectAvatarOverrides, pyOrElseStr, hh]
    | some v =>
      rw [hh] at hv
      have hv2 : v.isEmpty = true := by simpa [pyTruthy] using hv
      simp [connectAvatarOverrides, pyOrElseStr, hh, hv2]
  · intro hq hsp hw t m
    obtain ⟨h1, _⟩ := run_seqDrain [(t, m)] (connectAvatarOverrides h s) hq hsp hw
    simpa using h1
  · intro ep uq resp
    unfold handleUserQuery
    dsimp only
    split
    · rfl
    · split <;> rfl
  · intro cse csk p
    by_cases hc : (pyTruthy cse && pyTruthy csk
        && pyTruthy (connectAvatarOverrides h s).cognitive_search_index_name) = true
    · simp [initializeChatContext, hc]
    · have hc2 : (pyTruthy cse && pyTruthy csk
          && pyTruthy (connectAvatarOverrides h s).cognitive_search_index_name) = false := by
        simpa using hc
      simp [initializeChatContext, hc2]

/-- C9 (witness): the theorem at concrete headers that set the
deployment name, voice and custom-voice endpoint, omit the search-index
header and the speaker profile, followed by one queued utterance, one
chat request (whose URL carries the stored deployment name) and one
chat-context reset (whose data source carries the stored index
name). -/
theorem connectAvatar_overrides_spec_witness :
    (connectAvatarOverrides sampleHeaders initialState).azure_openai_deployment_name = some "d2"
      ∧ (connectAvatarOverrides sampleHeaders initialState).cognitive_search_index_name = none
      ∧ (connectAvatarOverrides sampleHeaders initialState).tts_voice = "v2"
      ∧ (connectAvatarOverrides sampleHeaders initialState).custom_voice_endpoint_id = some "c2"
      ∧ (connectAvatarOverrides sampleHeaders initialState).personal_voice_speaker_profile_id = none
      ∧ (run (connectAvatarOverrides sampleHeaders initialState) (seqDrainActs [("hi", 7)])).trace
          = [SpeechEvent.synthBegin ("hi") ("v2") none 7, SpeechEvent.synthEnd ("hi")]
      ∧ (handleUserQuery ("ep") (connectAvatarOverrides sampleHeaders initialState) ("hi")
            failedResponse).url
          = "ep/openai/deployments/d2/chat/completions?api-version=2023-06-01-preview"
      ∧ (initializeChatContext (some "se") (some "sk") ("p2")
            (connectAvatarOverrides sampleHeaders indexedState)).data_sources.map
            (fun d => d.indexName)
          = [some "idx"] := by
  obtain ⟨H1, H2, H3, H4, H5, H6, H7, H8, H9, H10, H11⟩ :=
    connectAvatar_overrides_spec sampleHeaders initialState
  obtain ⟨_, _, _, _, _, _, _, _, _, _, K11⟩ :=
    connectAvatar_overrides_spec sampleHeaders indexedState
  refine ⟨H1 (by decide), H4 (by decide), H5 ("v2") rfl (by decide), H7, H8, ?_, ?_, ?_⟩
  · simpa using H9 rfl rfl rfl ("hi") 7
  · rw [H10 ("ep") ("hi") failedResponse]
    decide
  · rw [K11 (some "se") (some "sk") ("p2")]
    decide

end Avatar
